import Mathlib

/-!
# Verification of `CameraExtrinsics` (src/src/utils/include/utils/camera/camera_extrinsics.h)

A shallow embedding of the `bsfm::CameraExtrinsics` class over exact real
arithmetic (`double` scalars are modelled by `ℝ`).  The collaborator
`Transform3D` (declared in `utils/math/transform_3d.h`, which is not part of
the sources) and the Euler-angle converter are modelled from the spec.
-/

namespace bsfm

/-- 3×3 real matrix, the embedding of `Eigen::Matrix3d`. -/
abbrev Matrix3 : Type := Matrix (Fin 3) (Fin 3) ℝ

/-- 3-vector, the embedding of `Eigen::Vector3d`. -/
abbrev Vector3 : Type := Fin 3 → ℝ

/-- 3×4 real matrix, the embedding of `Matrix34d`. -/
abbrev Matrix34 : Type := Matrix (Fin 3) (Fin 4) ℝ

/-- Modelled from the spec: the rigid transform primitive `Transform3D`
(header `utils/math/transform_3d.h` is missing from the sources).  Per spec §6
it stores a rotation matrix and a translation vector. -/
structure Transform3D where
  R : Matrix3
  t : Vector3

/-- Modelled from the spec: default construction of the primitive is the
identity transform (spec §6: "default construction = identity"). -/
def Transform3D.identity : Transform3D := ⟨1, 0⟩

/-- Modelled from the spec: `GetRotation() → matrix`. -/
def Transform3D.GetRotation (T : Transform3D) : Matrix3 := T.R

/-- Modelled from the spec: `GetTranslation() → vector`. -/
def Transform3D.GetTranslation (T : Transform3D) : Vector3 := T.t

/-- Modelled from the spec: `SetRotation(matrix)` on the primitive. -/
def Transform3D.SetRotation (T : Transform3D) (R : Matrix3) : Transform3D :=
  { T with R := R }

/-- Modelled from the spec: `SetTranslation(vector)` on the primitive. -/
def Transform3D.SetTranslation (T : Transform3D) (t : Vector3) : Transform3D :=
  { T with t := t }

/-- Modelled from the spec: `Inverse() → transform`, the closed-form rigid
inverse (spec §4: "rotation → Rᵗ, translation → -Rᵗ·t"). -/
def Transform3D.Inverse (T : Transform3D) : Transform3D :=
  ⟨T.R.transpose, -(T.R.transpose.mulVec T.t)⟩

/-- Modelled from the spec: applying the transform to a 3-vector (spec §3:
`p_camera = R · p_world + t`). -/
def Transform3D.apply (T : Transform3D) (p : Vector3) : Vector3 :=
  T.R.mulVec p + T.t

/-- Modelled from the spec: `Dehomogenize() → 3×4 matrix`, the augmented
`[R | t]` affine reduction of the stored transform. -/
def Transform3D.Dehomogenize (T : Transform3D) : Matrix34 :=
  Matrix.of fun i j => if h : (j : ℕ) < 3 then T.R i ⟨j, h⟩ else T.t i

/-- Modelled from the spec: the Euler-angle converter
`EulerAnglesToMatrix(φ, θ, ψ)` (its header is missing from the sources).
Spec §6 pins the convention as "fixed extrinsic XYZ or equivalent", i.e. the
product `Rz(ψ) · Ry(θ) · Rx(φ)` of the elementary axis rotations, which sends
`(0, 0, ψ)` to the Z-axis rotation matrix as spec §8's concrete scenario
requires. -/
noncomputable def EulerAnglesToMatrix (phi theta psi : ℝ) : Matrix3 :=
  !![Real.cos psi, -Real.sin psi, 0; Real.sin psi, Real.cos psi, 0; 0, 0, 1] *
    !![Real.cos theta, 0, Real.sin theta; 0, 1, 0; -Real.sin theta, 0, Real.cos theta] *
    !![1, 0, 0; 0, Real.cos phi, -Real.sin phi; 0, Real.sin phi, Real.cos phi]

/-- The camera extrinsics class: one stored field, the world-to-camera rigid
transform (`camera_extrinsics.h:120`). -/
structure CameraExtrinsics where
  world_to_camera_ : Transform3D

/-- Default constructor: `world_to_camera_ = Transform3D()`
(`camera_extrinsics.h:127-129`). -/
def CameraExtrinsics.mkIdentity : CameraExtrinsics := ⟨Transform3D.identity⟩

/-- Constructor from a transform (`camera_extrinsics.h:132-133`). -/
def CameraExtrinsics.mkFromTransform (world_to_camera : Transform3D) :
    CameraExtrinsics := ⟨world_to_camera⟩

/-- `SetWorldToCamera` (`camera_extrinsics.h:136-138`). -/
def CameraExtrinsics.SetWorldToCamera (_E : CameraExtrinsics)
    (world_to_camera : Transform3D) : CameraExtrinsics := ⟨world_to_camera⟩

/-- `WorldToCamera()` accessor (`camera_extrinsics.h:141-143`). -/
def CameraExtrinsics.WorldToCamera (E : CameraExtrinsics) : Transform3D :=
  E.world_to_camera_

/-- `CameraToWorld()` accessor: the inverse transform
(`camera_extrinsics.h:145-147`). -/
def CameraExtrinsics.CameraToWorld (E : CameraExtrinsics) : Transform3D :=
  E.world_to_camera_.Inverse

/-- `SetRotation(const Matrix3d&)`: recompute the centroid `c = -Rᵗt`, store
the new rotation and the recomputed translation `-R_new·c`
(`camera_extrinsics.h:154-161`). -/
def CameraExtrinsics.SetRotation (E : CameraExtrinsics) (rotation : Matrix3) :
    CameraExtrinsics :=
  let t : Vector3 := E.world_to_camera_.GetTranslation
  let R : Matrix3 := E.world_to_camera_.GetRotation
  let c : Vector3 := -(R.transpose.mulVec t)
  ⟨(E.world_to_camera_.SetRotation rotation).SetTranslation
    (-(rotation.mulVec c))⟩

/-- `SetRotation(double, double, double)` (`camera_extrinsics.h:163-165`). -/
noncomputable def CameraExtrinsics.SetRotationEuler (E : CameraExtrinsics)
    (phi theta psi : ℝ) : CameraExtrinsics :=
  E.SetRotation (EulerAnglesToMatrix phi theta psi)

/-- `Rotate(const Matrix3d&)`: left-multiply the current rotation and delegate
to `SetRotation` (`camera_extrinsics.h:167-170`). -/
def CameraExtrinsics.Rotate (E : CameraExtrinsics) (delta : Matrix3) :
    CameraExtrinsics :=
  E.SetRotation (delta * E.world_to_camera_.GetRotation)

/-- `Rotate(double, double, double)` (`camera_extrinsics.h:172-174`). -/
noncomputable def CameraExtrinsics.RotateEuler (E : CameraExtrinsics)
    (dphi dtheta dpsi : ℝ) : CameraExtrinsics :=
  E.Rotate (EulerAnglesToMatrix dphi dtheta dpsi)

/-- `Rotation()` accessor (`camera_extrinsics.h:176-178`). -/
def CameraExtrinsics.Rotation (E : CameraExtrinsics) : Matrix3 :=
  E.world_to_camera_.GetRotation

/-- `SetTranslation(const Vector3d&)`: store `-R·v` using the current rotation
(`camera_extrinsics.h:180-183`). -/
def CameraExtrinsics.SetTranslation (E : CameraExtrinsics)
    (translation : Vector3) : CameraExtrinsics :=
  let R : Matrix3 := E.world_to_camera_.GetRotation
  ⟨E.world_to_camera_.SetTranslation (-(R.mulVec translation))⟩

/-- `Translate(const Vector3d&)`: recompute the centroid, add the delta, store
`-R·c` (`camera_extrinsics.h:189-196`). -/
def CameraExtrinsics.Translate (E : CameraExtrinsics) (delta : Vector3) :
    CameraExtrinsics :=
  let t : Vector3 := E.world_to_camera_.GetTranslation
  let R : Matrix3 := E.world_to_camera_.GetRotation
  let c : Vector3 := -(R.transpose.mulVec t) + delta
  ⟨E.world_to_camera_.SetTranslation (-(R.mulVec c))⟩

/-- `TranslateX` (`camera_extrinsics.h:202-204`). -/
def CameraExtrinsics.TranslateX (E : CameraExtrinsics) (dx : ℝ) :
    CameraExtrinsics := E.Translate ![dx, 0, 0]

/-- `TranslateY` (`camera_extrinsics.h:206-208`). -/
def CameraExtrinsics.TranslateY (E : CameraExtrinsics) (dy : ℝ) :
    CameraExtrinsics := E.Translate ![0, dy, 0]

/-- `TranslateZ` (`camera_extrinsics.h:210-212`). -/
def CameraExtrinsics.TranslateZ (E : CameraExtrinsics) (dz : ℝ) :
    CameraExtrinsics := E.Translate ![0, 0, dz]

/-- `Translation()` accessor: the camera centroid `-Rᵗt`
(`camera_extrinsics.h:214-218`). -/
def CameraExtrinsics.Translation (E : CameraExtrinsics) : Vector3 :=
  -(E.world_to_camera_.GetRotation.transpose.mulVec
      E.world_to_camera_.GetTranslation)

/-- `Rt()`: the augmented extrinsics matrix, via `Dehomogenize`
(`camera_extrinsics.h:221-223`). -/
def CameraExtrinsics.Rt (E : CameraExtrinsics) : Matrix34 :=
  E.world_to_camera_.Dehomogenize

/-- Point conversion `WorldToCamera(wx, wy, wz, cx, cy, cz)`
(`camera_extrinsics.h:226-238`).  The three `double*` outputs are modelled as
`Bool` flags (`true` = non-null); `CHECK_NOTNULL` aborting on a null pointer is
modelled by the result `none`, and a normal return writing all three outputs
by `some` of the written triple. -/
def CameraExtrinsics.WorldToCameraPoint (E : CameraExtrinsics)
    (wx wy wz : ℝ) (cxOk cyOk czOk : Bool) : Option (ℝ × ℝ × ℝ) :=
  if cxOk && cyOk && czOk then
    let c : Vector3 := E.world_to_camera_.apply ![wx, wy, wz]
    some (c 0, c 1, c 2)
  else none

/-- Point conversion `CameraToWorld(cx, cy, cz, wx, wy, wz)`
(`camera_extrinsics.h:241-253`), modelled like `WorldToCameraPoint`. -/
def CameraExtrinsics.CameraToWorldPoint (E : CameraExtrinsics)
    (cx cy cz : ℝ) (wxOk wyOk wzOk : Bool) : Option (ℝ × ℝ × ℝ) :=
  if wxOk && wyOk && wzOk then
    let w : Vector3 := E.CameraToWorld.apply ![cx, cy, cz]
    some (w 0, w 1, w 2)
  else none

/-- The observer (`const`) methods of the class, with their arguments. -/
inductive ObserverCall where
  | worldToCamera : ObserverCall
  | cameraToWorld : ObserverCall
  | rotation : ObserverCall
  | translation : ObserverCall
  | rt : ObserverCall
  | worldToCameraPoint (wx wy wz : ℝ) (cxOk cyOk czOk : Bool) : ObserverCall
  | cameraToWorldPoint (cx cy cz : ℝ) (wxOk wyOk wzOk : Bool) : ObserverCall

/-- The state of the object after an observer call returns: each `const`
method body reads `world_to_camera_` and never assigns to it, so a normal
return leaves the state it was invoked on; a point conversion with a null
output aborts (`none`) and has no post-state. -/
def runObserver (call : ObserverCall) (E : CameraExtrinsics) :
    Option CameraExtrinsics :=
  match call with
  | .worldToCamera => some E
  | .cameraToWorld => some E
  | .rotation => some E
  | .translation => some E
  | .rt => some E
  | .worldToCameraPoint wx wy wz cxOk cyOk czOk =>
      (E.WorldToCameraPoint wx wy wz cxOk cyOk czOk).map fun _ => E
  | .cameraToWorldPoint cx cy cz wxOk wyOk wzOk =>
      (E.CameraToWorldPoint cx cy cz wxOk wyOk wzOk).map fun _ => E

/-! ## Helper lemmas -/

/-- Eta expansion for 3-vectors. -/
lemma vec3_eta (v : Vector3) : (![v 0, v 1, v 2] : Vector3) = v := by
  funext i
  fin_cases i <;> rfl

/-! ## Claim theorems -/

/-- C1: `SetRotation(Rn)` with an orthonormal `Rn` leaves the camera center
`Translation()` unchanged, afterwards `Rotation()` equals `Rn`, and the update
stores rotation `Rn` and translation `t_new = -Rn·c` for the centroid
`c = -Rᵗ·t` computed from the current `R` and `t`. -/
theorem setRotation_preserves_center (E : CameraExtrinsics) (Rn : Matrix3)
    (h : Rn.transpose * Rn = 1) :
    (E.SetRotation Rn).Translation = E.Translation ∧
    (E.SetRotation Rn).Rotation = Rn ∧
    (E.SetRotation Rn).world_to_camera_.R = Rn ∧
    (E.SetRotation Rn).world_to_camera_.t =
      -(Rn.mulVec
        (-(E.world_to_camera_.R.transpose.mulVec E.world_to_camera_.t))) := by
  refine ⟨?_, rfl, rfl, rfl⟩
  simp [CameraExtrinsics.SetRotation, CameraExtrinsics.Translation,
    Transform3D.SetRotation, Transform3D.SetTranslation, Transform3D.GetRotation,
    Transform3D.GetTranslation, Matrix.mulVec_neg]
  rw [← mul_assoc, h, one_mul]

/-- Witness for C1 at the identity pose and `Rn = 1`. -/
theorem setRotation_preserves_center_witness :
    ((1 : Matrix3).transpose * 1 = 1) ∧
    (CameraExtrinsics.mkIdentity.SetRotation 1).Translation =
      CameraExtrinsics.mkIdentity.Translation :=
  ⟨by simp,
    (setRotation_preserves_center CameraExtrinsics.mkIdentity 1 (by simp)).1⟩

/-- C3: `SetTranslation(v)` on a pose with orthonormal rotation makes
`Translation()` return exactly `v` (storing `t_new = -R·v` with the current
rotation `R`), and `Rotation()` is unchanged. -/
theorem setTranslation_sets_center (E : CameraExtrinsics) (v : Vector3)
    (h : E.world_to_camera_.R.transpose * E.world_to_camera_.R = 1) :
    (E.SetTranslation v).Translation = v ∧
    (E.SetTranslation v).Rotation = E.Rotation ∧
    (E.SetTranslation v).world_to_camera_.t =
      -(E.world_to_camera_.R.mulVec v) := by
  refine ⟨?_, rfl, rfl⟩
  simp [CameraExtrinsics.SetTranslation, CameraExtrinsics.Translation,
    Transform3D.SetTranslation, Transform3D.GetRotation,
    Transform3D.GetTranslation, Matrix.mulVec_neg]
  rw [h, Matrix.one_mulVec]

/-- Witness for C3 at the identity pose and `v = (1, 2, 3)`. -/
theorem setTranslation_sets_center_witness :
    (CameraExtrinsics.mkIdentity.world_to_camera_.R.transpose *
      CameraExtrinsics.mkIdentity.world_to_camera_.R = 1) ∧
    (CameraExtrinsics.mkIdentity.SetTranslation ![1, 2, 3]).Translation =
      ![1, 2, 3] :=
  ⟨by simp [CameraExtrinsics.mkIdentity, Transform3D.identity],
    (setTranslation_sets_center CameraExtrinsics.mkIdentity ![1, 2, 3]
      (by simp [CameraExtrinsics.mkIdentity, Transform3D.identity])).1⟩

/-- C2: `Rotate(Δ)` with orthonormal `Δ` on a pose with orthonormal rotation
left-multiplies the rotation (`Rotation()` becomes `Δ·R_before`) and leaves
the camera center `Translation()` unchanged. -/
theorem rotate_composes_left (E : CameraExtrinsics) (delta : Matrix3)
    (hd : delta.transpose * delta = 1)
    (hE : E.world_to_camera_.R.transpose * E.world_to_camera_.R = 1) :
    (E.Rotate delta).Rotation = delta * E.Rotation ∧
    (E.Rotate delta).Translation = E.Translation := by
  refine ⟨rfl, ?_⟩
  simp [CameraExtrinsics.Rotate, CameraExtrinsics.SetRotation,
    CameraExtrinsics.Translation, Transform3D.SetRotation,
    Transform3D.SetTranslation, Transform3D.GetRotation,
    Transform3D.GetTranslation, Matrix.mulVec_neg, Matrix.mulVec_mulVec]
  have hE2 : E.world_to_camera_.R * E.world_to_camera_.R.transpose = 1 :=
    Matrix.mul_eq_one_comm.mp hE
  rw [mul_assoc E.world_to_camera_.R.transpose delta.transpose,
    mul_assoc delta, hE2, mul_one, hd, mul_one]

/-- Witness for C2 at the identity pose and `Δ = 1`. -/
theorem rotate_composes_left_witness :
    ((1 : Matrix3).transpose * 1 = 1) ∧
    (CameraExtrinsics.mkIdentity.Rotate 1).Translation =
      CameraExtrinsics.mkIdentity.Translation :=
  ⟨by simp,
    (rotate_composes_left CameraExtrinsics.mkIdentity 1 (by simp)
      (by simp [CameraExtrinsics.mkIdentity, Transform3D.identity])).2⟩

/-- C4: two successive `Translate` calls on a pose with orthonormal rotation
accumulate on the camera center (`Translation()` becomes `c0 + Δ1 + Δ2`),
neither call changes `Rotation()`, and each call stores
`t_new = -R·(c + Δ)` for the recomputed centroid `c = -Rᵗ·t`. -/
theorem translate_accumulates (E : CameraExtrinsics) (d1 d2 : Vector3)
    (hE : E.world_to_camera_.R.transpose * E.world_to_camera_.R = 1) :
    ((E.Translate d1).Translate d2).Translation = E.Translation + d1 + d2 ∧
    (E.Translate d1).Rotation = E.Rotation ∧
    ((E.Translate d1).Translate d2).Rotation = E.Rotation ∧
    (E.Translate d1).world_to_camera_.t =
      -(E.world_to_camera_.R.mulVec
        (-(E.world_to_camera_.R.transpose.mulVec E.world_to_camera_.t) +
          d1)) := by
  refine ⟨?_, rfl, rfl, rfl⟩
  simp [CameraExtrinsics.Translate, CameraExtrinsics.Translation,
    Transform3D.SetTranslation, Transform3D.GetRotation,
    Transform3D.GetTranslation, Matrix.mulVec_neg, Matrix.mulVec_add,
    Matrix.mulVec_mulVec, ← mul_assoc, hE, add_assoc]

/-- Witness for C4 at the identity pose, `Δ1 = (1,0,0)`, `Δ2 = (0,1,0)`. -/
theorem translate_accumulates_witness :
    (CameraExtrinsics.mkIdentity.world_to_camera_.R.transpose *
      CameraExtrinsics.mkIdentity.world_to_camera_.R = 1) ∧
    ((CameraExtrinsics.mkIdentity.Translate ![1, 0, 0]).Translate
        ![0, 1, 0]).Translation =
      CameraExtrinsics.mkIdentity.Translation + ![1, 0, 0] + ![0, 1, 0] :=
  ⟨by simp [CameraExtrinsics.mkIdentity, Transform3D.identity],
    (translate_accumulates CameraExtrinsics.mkIdentity ![1, 0, 0] ![0, 1, 0]
      (by simp [CameraExtrinsics.mkIdentity, Transform3D.identity])).1⟩

/-- C5: for a pose with orthonormal rotation, `CameraToWorld` is the
closed-form rigid inverse (`Rᵗ`, `-Rᵗ·t`) of the stored transform, and
converting any point world→camera and back camera→world (both through the
transform accessors and through the scalar point conversions) yields the
point again. -/
theorem world_camera_roundtrip (E : CameraExtrinsics) (p : Vector3)
    (hE : E.world_to_camera_.R.transpose * E.world_to_camera_.R = 1) :
    E.CameraToWorld.R = E.world_to_camera_.R.transpose ∧
    E.CameraToWorld.t =
      -(E.world_to_camera_.R.transpose.mulVec E.world_to_camera_.t) ∧
    E.CameraToWorld.apply (E.WorldToCamera.apply p) = p ∧
    ((E.WorldToCameraPoint (p 0) (p 1) (p 2) true true true).bind fun q =>
        E.CameraToWorldPoint q.1 q.2.1 q.2.2 true true true) =
      some (p 0, p 1, p 2) := by
  have key : ∀ x : Vector3,
      E.CameraToWorld.apply (E.world_to_camera_.apply x) = x := by
    intro x
    simp [CameraExtrinsics.CameraToWorld, Transform3D.Inverse,
      Transform3D.apply, Matrix.mulVec_add, Matrix.mulVec_mulVec, hE,
      add_assoc]
  refine ⟨rfl, rfl, key p, ?_⟩
  simp only [CameraExtrinsics.WorldToCameraPoint, Bool.and_self, if_true,
    Option.some_bind, CameraExtrinsics.CameraToWorldPoint]
  rw [vec3_eta p, vec3_eta (E.world_to_camera_.apply p), key p]

/-- Witness for C5 at the identity pose and `p = (5, 6, 7)`. -/
theorem world_camera_roundtrip_witness :
    (CameraExtrinsics.mkIdentity.world_to_camera_.R.transpose *
      CameraExtrinsics.mkIdentity.world_to_camera_.R = 1) ∧
    CameraExtrinsics.mkIdentity.CameraToWorld.apply
      (CameraExtrinsics.mkIdentity.WorldToCamera.apply ![5, 6, 7]) =
      ![5, 6, 7] :=
  ⟨by simp [CameraExtrinsics.mkIdentity, Transform3D.identity],
    (world_camera_roundtrip CameraExtrinsics.mkIdentity ![5, 6, 7]
      (by simp [CameraExtrinsics.mkIdentity, Transform3D.identity])).2.2.1⟩

/-- C6: a point conversion with any output destination null aborts (result
`none`) for both `WorldToCamera` and `CameraToWorld`; with all three outputs
non-null no failure occurs and all three outputs are written with the
converted coordinates. -/
theorem pointConversion_null_check (E : CameraExtrinsics) (x y z : ℝ)
    (b1 b2 b3 : Bool) :
    (¬(b1 = true ∧ b2 = true ∧ b3 = true) →
      E.WorldToCameraPoint x y z b1 b2 b3 = none ∧
      E.CameraToWorldPoint x y z b1 b2 b3 = none) ∧
    (b1 = true ∧ b2 = true ∧ b3 = true →
      E.WorldToCameraPoint x y z b1 b2 b3 =
        some (E.world_to_camera_.apply ![x, y, z] 0,
          E.world_to_camera_.apply ![x, y, z] 1,
          E.world_to_camera_.apply ![x, y, z] 2) ∧
      E.CameraToWorldPoint x y z b1 b2 b3 =
        some (E.CameraToWorld.apply ![x, y, z] 0,
          E.CameraToWorld.apply ![x, y, z] 1,
          E.CameraToWorld.apply ![x, y, z] 2)) := by
  constructor
  · intro hnull
    have hb : (b1 && b2 && b3) = false := by
      cases b1 <;> cases b2 <;> cases b3 <;> simp_all
    simp [CameraExtrinsics.WorldToCameraPoint,
      CameraExtrinsics.CameraToWorldPoint, hb]
  · rintro ⟨h1, h2, h3⟩
    subst h1; subst h2; subst h3
    simp [CameraExtrinsics.WorldToCameraPoint,
      CameraExtrinsics.CameraToWorldPoint]

/-- Witness for C6: at the identity pose, a null first output aborts and
all-non-null outputs succeed. -/
theorem pointConversion_null_check_witness :
    CameraExtrinsics.mkIdentity.WorldToCameraPoint 1 2 3 false true true =
      none ∧
    CameraExtrinsics.mkIdentity.WorldToCameraPoint 1 2 3 true true true =
      some (1, 2, 3) := by
  constructor
  · exact ((pointConversion_null_check CameraExtrinsics.mkIdentity 1 2 3
      false true true).1 (by simp)).1
  · have h := ((pointConversion_null_check CameraExtrinsics.mkIdentity 1 2 3
      true true true).2 ⟨rfl, rfl, rfl⟩).1
    simpa [CameraExtrinsics.mkIdentity, Transform3D.identity,
      Transform3D.apply] using h

/-- C7: `Rt()` is the augmented `[R | t]` matrix of the raw stored rotation
and translation: its first three columns equal `Rotation()`, its fourth
column equals the stored `t`, and applying it to the homogeneous world point
`(wx, wy, wz, 1)` yields the same camera-frame point as the `WorldToCamera`
point conversion. -/
theorem rt_matrix_consistency (E : CameraExtrinsics) (wx wy wz : ℝ) :
    (∀ i : Fin 3, ∀ j : Fin 3, E.Rt i j.castSucc = E.Rotation i j) ∧
    (∀ i : Fin 3, E.Rt i 3 = E.world_to_camera_.t i) ∧
    E.Rt.mulVec ![wx, wy, wz, 1] = E.world_to_camera_.apply ![wx, wy, wz] ∧
    E.WorldToCameraPoint wx wy wz true true true =
      some (E.Rt.mulVec ![wx, wy, wz, 1] 0, E.Rt.mulVec ![wx, wy, wz, 1] 1,
        E.Rt.mulVec ![wx, wy, wz, 1] 2) := by
  have hcol : ∀ i : Fin 3, ∀ j : Fin 3, E.Rt i j.castSucc = E.Rotation i j := by
    intro i j
    fin_cases j <;>
      simp [CameraExtrinsics.Rt, CameraExtrinsics.Rotation,
        Transform3D.Dehomogenize, Transform3D.GetRotation]
  have hlast : ∀ i : Fin 3, E.Rt i 3 = E.world_to_camera_.t i := by
    intro i
    simp [CameraExtrinsics.Rt, Transform3D.Dehomogenize]
    exact fun h => absurd h (by decide)
  have hmul : E.Rt.mulVec ![wx, wy, wz, 1] =
      E.world_to_camera_.apply ![wx, wy, wz] := by
    funext i
    simp [CameraExtrinsics.Rt, Transform3D.Dehomogenize, Transform3D.apply,
      Matrix.mulVec, Matrix.dotProduct, Fin.sum_univ_four, Fin.sum_univ_three]
    exact fun h => absurd h (by decide)
  refine ⟨hcol, hlast, hmul, ?_⟩
  rw [hmul]
  simp [CameraExtrinsics.WorldToCameraPoint]

/-- C9: the default-constructed pose is the identity pose: stored `R = I`,
`t = 0`, `Translation()` is the zero vector, `Rotation()` the identity
matrix, both transform accessors return the identity transform, and both
point conversions map every point to itself. -/
theorem default_pose_identity (wx wy wz : ℝ) :
    CameraExtrinsics.mkIdentity.world_to_camera_.R = 1 ∧
    CameraExtrinsics.mkIdentity.world_to_camera_.t = 0 ∧
    CameraExtrinsics.mkIdentity.Translation = ![0, 0, 0] ∧
    CameraExtrinsics.mkIdentity.Rotation = 1 ∧
    CameraExtrinsics.mkIdentity.WorldToCamera = Transform3D.identity ∧
    CameraExtrinsics.mkIdentity.CameraToWorld = Transform3D.identity ∧
    CameraExtrinsics.mkIdentity.WorldToCameraPoint wx wy wz true true true =
      some (wx, wy, wz) ∧
    CameraExtrinsics.mkIdentity.CameraToWorldPoint wx wy wz true true true =
      some (wx, wy, wz) := by
  refine ⟨rfl, rfl, ?_, rfl, rfl, ?_, ?_, ?_⟩
  · funext i
    fin_cases i <;>
      simp [CameraExtrinsics.mkIdentity, CameraExtrinsics.Translation,
        Transform3D.identity, Transform3D.GetRotation,
        Transform3D.GetTranslation]
  · simp [CameraExtrinsics.mkIdentity, CameraExtrinsics.CameraToWorld,
      Transform3D.Inverse, Transform3D.identity]
  · simp [CameraExtrinsics.mkIdentity, CameraExtrinsics.WorldToCameraPoint,
      Transform3D.apply, Transform3D.identity]
  · simp [CameraExtrinsics.mkIdentity, CameraExtrinsics.CameraToWorldPoint,
      CameraExtrinsics.CameraToWorld, Transform3D.Inverse, Transform3D.apply,
      Transform3D.identity]

/-- C10: every observer (`const`) method that returns normally leaves the
stored world-to-camera transform unchanged: both the rotation and the
translation fields of the post-state equal those of the pre-state. -/
theorem observers_leave_state_unchanged (call : ObserverCall)
    (E Epost : CameraExtrinsics) (h : runObserver call E = some Epost) :
    Epost.world_to_camera_.R = E.world_to_camera_.R ∧
    Epost.world_to_camera_.t = E.world_to_camera_.t := by
  have hEq : Epost = E := by
    cases call <;>
      simp_all [runObserver, CameraExtrinsics.WorldToCameraPoint,
        CameraExtrinsics.CameraToWorldPoint, Option.map_eq_some]
  subst hEq
  exact ⟨rfl, rfl⟩

/-- Witness for C10 at the identity pose and the `Rotation()` observer. -/
theorem observers_leave_state_unchanged_witness :
    CameraExtrinsics.mkIdentity.world_to_camera_.R =
      CameraExtrinsics.mkIdentity.world_to_camera_.R ∧
    CameraExtrinsics.mkIdentity.world_to_camera_.t =
      CameraExtrinsics.mkIdentity.world_to_camera_.t :=
  observers_leave_state_unchanged ObserverCall.rotation
    CameraExtrinsics.mkIdentity CameraExtrinsics.mkIdentity rfl

/-- At `(φ, θ, ψ) = (0, 0, π/2)` the Euler converter yields the 90° Z-axis
rotation matrix. -/
lemma euler_z90 : EulerAnglesToMatrix 0 0 (Real.pi / 2) =
    !![0, -1, 0; 1, 0, 0; 0, 0, 1] := by
  unfold EulerAnglesToMatrix
  rw [Real.cos_pi_div_two, Real.sin_pi_div_two, Real.cos_zero, Real.sin_zero]
  ext i j
  fin_cases i <;> fin_cases j <;>
    simp [Matrix.mul_apply, Fin.sum_univ_three, Matrix.vecHead,
      Matrix.vecTail]

/-- C8: starting from the default (identity) pose, `Rotate` by Euler angles
`(0, 0, π/2)` and `Translate((1,0,0))` give the same final observations in
either order: `Translation()` is `(1,0,0)` and `Rotation()` is the 90°
Z-axis rotation matrix. -/
theorem rotate_translate_commute_on_identity :
    ((CameraExtrinsics.mkIdentity.RotateEuler 0 0 (Real.pi / 2)).Translate
        ![1, 0, 0]).Translation = ![1, 0, 0] ∧
    ((CameraExtrinsics.mkIdentity.RotateEuler 0 0 (Real.pi / 2)).Translate
        ![1, 0, 0]).Rotation = !![0, -1, 0; 1, 0, 0; 0, 0, 1] ∧
    ((CameraExtrinsics.mkIdentity.Translate ![1, 0, 0]).RotateEuler 0 0
        (Real.pi / 2)).Translation = ![1, 0, 0] ∧
    ((CameraExtrinsics.mkIdentity.Translate ![1, 0, 0]).RotateEuler 0 0
        (Real.pi / 2)).Rotation = !![0, -1, 0; 1, 0, 0; 0, 0, 1] := by
  refine ⟨?_, ?_, ?_, ?_⟩
  · funext i
    fin_cases i <;>
      simp [CameraExtrinsics.RotateEuler, CameraExtrinsics.Rotate,
        CameraExtrinsics.SetRotation, CameraExtrinsics.Translate,
        CameraExtrinsics.Translation, CameraExtrinsics.mkIdentity,
        Transform3D.identity, Transform3D.GetRotation,
        Transform3D.GetTranslation, Transform3D.SetRotation,
        Transform3D.SetTranslation, euler_z90, Matrix.mulVec,
        Matrix.dotProduct, Fin.sum_univ_three, Matrix.transpose_apply,
        Matrix.mul_apply, Matrix.vecHead, Matrix.vecTail]
  · simp [CameraExtrinsics.RotateEuler, CameraExtrinsics.Rotate,
      CameraExtrinsics.SetRotation, CameraExtrinsics.Translate,
      CameraExtrinsics.Rotation, CameraExtrinsics.mkIdentity,
      Transform3D.identity, Transform3D.GetRotation, Transform3D.SetRotation,
      Transform3D.SetTranslation, euler_z90]
  · funext i
    fin_cases i <;>
      simp [CameraExtrinsics.RotateEuler, CameraExtrinsics.Rotate,
        CameraExtrinsics.SetRotation, CameraExtrinsics.Translate,
        CameraExtrinsics.Translation, CameraExtrinsics.mkIdentity,
        Transform3D.identity, Transform3D.GetRotation,
        Transform3D.GetTranslation, Transform3D.SetRotation,
        Transform3D.SetTranslation, euler_z90, Matrix.mulVec,
        Matrix.dotProduct, Fin.sum_univ_three, Matrix.transpose_apply,
        Matrix.mul_apply, Matrix.vecHead, Matrix.vecTail]
  · simp [CameraExtrinsics.RotateEuler, CameraExtrinsics.Rotate,
      CameraExtrinsics.SetRotation, CameraExtrinsics.Translate,
      CameraExtrinsics.Rotation, CameraExtrinsics.mkIdentity,
      Transform3D.identity, Transform3D.GetRotation, Transform3D.SetRotation,
      Transform3D.SetTranslation, euler_z90]

end bsfm
